import Mathlib

/-!
Verification of the style-transfer pipeline in `stylepipeline.py`: the
round-robin dispatcher (`push_run`), the per-worker loop (`model_run`),
the collector (`pull_run`), the encode-cache pipeline stage
(`StyleRunner.encode_frame` / `StyleRunner.apply`), and the startup
style-cache construction in `main`.

Tensors are embedded symbolically as a free term algebra: each torch
operation appearing in the source is a constructor, so the exact shape of
every computed value (which stages ran, in which order, on which device)
is decidable and comparable.  Queue-based thread loops are embedded as
deterministic functions from the finite sequence of items delivered on a
queue to the sequence of items the loop emits: an empty poll (`queue.Empty`
followed by `continue`) is a no-op retry in the source, so it disappears in
this abstraction.
-/

namespace StyleLens

/-- A torch device, identified by its name string (`torch.device(name)`). -/
structure Device where
  name : String
deriving DecidableEq, Repr

/-- Symbolic tensor values: one constructor per torch operation used by the
pipeline code.  `raw` is an input tensor (an image loaded outside the
pipeline), identified by an id and the device it lives on. -/
inductive Tensor where
  | raw (id : Nat) (device : Device)
  | asTensor (t : Tensor) (device : Device)
  | unsqueeze (t : Tensor)
  | enc14 (t : Tensor)
  | enc5 (t : Tensor)
  | transform (sourceE4 styleE4 sourceE5 styleE5 : Tensor)
  | decode (t : Tensor)
  | squeeze (t : Tensor)
deriving DecidableEq, Repr

/-- The device a symbolic tensor lives on: `torch.as_tensor(t, device=d)`
moves to `d`; every module was moved to the runner's device in `load`, so
applying a stage keeps the device of its input. -/
def Tensor.device : Tensor → Device
  | .raw _ d => d
  | .asTensor _ d => d
  | .unsqueeze t => t.device
  | .enc14 t => t.device
  | .enc5 t => t.device
  | .transform a _ _ _ => a.device
  | .decode t => t.device
  | .squeeze t => t.device

/-- Whether a symbolic tensor was produced through (contains an application
of) one of the two encoder stages `enc_1_to_4` / `enc_5`. -/
def Tensor.usesEncoder : Tensor → Bool
  | .raw _ _ => false
  | .asTensor t _ => t.usesEncoder
  | .unsqueeze t => t.usesEncoder
  | .enc14 _ => true
  | .enc5 _ => true
  | .transform a b c d => a.usesEncoder || b.usesEncoder || c.usesEncoder || d.usesEncoder
  | .decode t => t.usesEncoder
  | .squeeze t => t.usesEncoder

/-- `EncodedFrame`: the batch[1] encoded e4/e5 pair (dataclass in the
source). -/
structure EncodedFrame where
  e4 : Tensor
  e5 : Tensor
deriving DecidableEq, Repr

/-- `EncodedFrameOrTensor = Union[EncodedFrame, torch.Tensor]`. -/
inductive EncodedFrameOrTensor where
  | frame (f : EncodedFrame)
  | tensor (t : Tensor)
deriving DecidableEq, Repr

/-- A job payload submitted to `apply(**job)`: a dict whose relevant keys
are `source` and `style`; a missing key is `none`. -/
structure Job where
  source : Option EncodedFrameOrTensor
  style : Option EncodedFrameOrTensor
deriving DecidableEq, Repr

/-- An item travelling on the shared input queue or a worker input queue:
the `Halt` class object itself (the sentinel as the source uses it), an
instance `Halt()` of that class (with its object identity), or a job
dict. -/
inductive QItem where
  | haltClass
  | haltInstance (oid : Nat)
  | jobItem (j : Job)
deriving DecidableEq, Repr

/-- Python `item == Halt` where `Halt` is a class with no `__eq__`: classes
and instances compare by identity, and a dict never equals a class object,
so only the class object itself compares equal to `Halt`. -/
def pyEqHalt : QItem → Bool
  | .haltClass => true
  | .haltInstance _ => false
  | .jobItem _ => false

/-- Python exceptions raised by the embedded code paths. -/
inductive PyError where
  | typeError
  | attributeError
  | valueError
deriving DecidableEq, Repr

/-- An item a worker puts on its output queue: the `Halt` class object, or
an `apply` result tensor. -/
inductive ResultItem where
  | haltClass
  | result (t : Tensor)
deriving DecidableEq, Repr

/-- A `StyleRunner` as the pipeline sees it: a device-bound runner (the
loaded sub-stages are embedded as the `Tensor` constructors). -/
structure StyleRunner where
  device : Device
deriving DecidableEq, Repr

/-- `StyleRunner.encode_frame` (lines 172-188): if the input is already an
`EncodedFrame` whose `e4` tensor is on this runner's device, return it
unchanged; if it is an `EncodedFrame` on another device, rebuild it from
the stored `e4`/`e5` tensors with `torch.as_tensor(..., device).detach()`;
if it is a raw tensor, move it to the device and run the two encoder
stages on `source.unsqueeze(0)`. -/
def StyleRunner.encode_frame (r : StyleRunner) : EncodedFrameOrTensor → EncodedFrame
  | .frame f =>
    if f.e4.device = r.device then
      f
    else
      ⟨Tensor.asTensor f.e4 r.device, Tensor.asTensor f.e5 r.device⟩
  | .tensor t =>
    let source := Tensor.asTensor t r.device
    let e4 := Tensor.enc14 (Tensor.unsqueeze source)
    let e5 := Tensor.enc5 e4
    ⟨e4, e5⟩

/-- `StyleRunner.encode_frame` instrumented with the spec's injected call
counter on the encoder stages: the same code, returning additionally how
many encoder-stage invocations (`enc_1_to_4`, `enc_5`) the call performed. -/
def StyleRunner.encode_frameCount (r : StyleRunner) :
    EncodedFrameOrTensor → EncodedFrame × Nat
  | .frame f =>
    if f.e4.device = r.device then
      (f, 0)
    else
      (⟨Tensor.asTensor f.e4 r.device, Tensor.asTensor f.e5 r.device⟩, 0)
  | .tensor t =>
    let source := Tensor.asTensor t r.device
    let e4 := Tensor.enc14 (Tensor.unsqueeze source)
    let e5 := Tensor.enc5 e4
    (⟨e4, e5⟩, 2)

/-- `StyleRunner.apply` (lines 190-207): encode `source` and `style`, feed
`transform(source.e4, style.e4, source.e5, style.e5)` through the decoder
and `.squeeze()` the result. -/
def StyleRunner.apply (r : StyleRunner)
    (source style : EncodedFrameOrTensor) : Tensor :=
  let source := r.encode_frame source
  let style := r.encode_frame style
  let t := Tensor.transform source.e4 style.e4 source.e5 style.e5
  Tensor.squeeze (Tensor.decode t)

/-- The Python call `model_runner.apply(**job)` in the worker loop:
unpacking a non-mapping (such as a `Halt()` instance) raises `TypeError`,
as does a dict missing one of the required keyword-only arguments
`source` / `style`; otherwise `apply` runs. -/
def applyUnpack (r : StyleRunner) : QItem → Except PyError Tensor
  | .jobItem j =>
    match j.source, j.style with
    | some s, some st => Except.ok (r.apply s st)
    | _, _ => Except.error PyError.typeError
  | _ => Except.error PyError.typeError

/-- The worker loop `model_run` (lines 54-64), as a function of the finite
sequence of items delivered on `runner_input`: on the `Halt` class object,
put `Halt` on `runner_output` and break; otherwise put the result of
`model_runner.apply(**job)`, an uncaught exception ending the loop.
Returns the emitted output-queue items and the uncaught exception, if
any (`none` with the list exhausted means the loop is still polling). -/
def model_run (r : StyleRunner) : List QItem → List ResultItem × Option PyError
  | [] => ([], none)
  | item :: rest =>
    if pyEqHalt item then
      ([ResultItem.haltClass], none)
    else
      match applyUnpack r item with
      | Except.error e => ([], some e)
      | Except.ok t =>
        let p := model_run r rest
        (ResultItem.result t :: p.1, p.2)

/-- The dispatcher loop `push_run` (lines 88-100) from rotation index
`idx`, as a function of the finite sequence of items delivered on the
shared input queue: on the `Halt` class object it breaks (forwarding
nothing further); otherwise it puts the job on `thread_input_queues[idx]`
and advances `idx = (idx + 1) % W`.  Returns the `(worker index, item)`
sends in order. -/
def push_runFrom (W : Nat) : Nat → List QItem → List (Nat × QItem)
  | _, [] => []
  | idx, item :: rest =>
    if pyEqHalt item then
      []
    else
      (idx, item) :: push_runFrom W ((idx + 1) % W) rest

/-- The dispatcher loop `push_run`, started at rotation index 0. -/
def push_run (W : Nat) (input : List QItem) : List (Nat × QItem) :=
  push_runFrom W 0 input

/-- The sequence of items the dispatcher delivers to worker `w`'s input
queue: the sends of `push_run` addressed to `w`, in order. -/
def workerInput (W : Nat) (input : List QItem) (w : Nat) : List QItem :=
  ((push_run W input).filter (fun p => p.1 == w)).map Prod.snd

/-- The sequence of items worker `w` puts on its output queue, given what
the dispatcher delivered to it. -/
def workerOutputs (r : StyleRunner) (W : Nat) (input : List QItem)
    (w : Nat) : List ResultItem :=
  (model_run r (workerInput W input w)).1

/-- Modelled from the spec: "Dispatcher assigns job i to worker (i mod W)"
in submission order — the reference assignment stream the dispatcher is
claimed to implement. -/
def roundRobinSpec (W : Nat) : Nat → List Job → List (Nat × QItem)
  | _, [] => []
  | i, j :: js => (i % W, QItem.jobItem j) :: roundRobinSpec W (i + 1) js

theorem push_runFrom_eq_roundRobinSpec (W : Nat) (js : List Job) :
    ∀ i idx, idx = i % W →
      push_runFrom W idx (js.map QItem.jobItem ++ [QItem.haltClass])
        = roundRobinSpec W i js := by
  induction js with
  | nil =>
    intro i idx _
    simp [push_runFrom, roundRobinSpec, pyEqHalt]
  | cons j js ih =>
    intro i idx hidx
    subst hidx
    simp only [List.map_cons, List.cons_append, push_runFrom, pyEqHalt,
      roundRobinSpec, if_neg, Bool.false_eq_true, not_false_eq_true,
      List.cons.injEq, true_and]
    rw [Nat.mod_add_mod]
    exact ih (i + 1) ((i + 1) % W) rfl

/-- C2: for every worker count W ≥ 1 and every sequence of jobs submitted
to the shared input queue before a Halt, the dispatcher forwards job i
(0-indexed) unchanged to the input queue of worker (i mod W), in
submission order, with no reordering: its send stream equals the
round-robin reference stream. -/
theorem push_run_round_robin (W : Nat) (hW : 1 ≤ W) (jobs : List Job) :
    push_run W (jobs.map QItem.jobItem ++ [QItem.haltClass])
      = roundRobinSpec W 0 jobs := by
  exact push_runFrom_eq_roundRobinSpec W jobs 0 0 (by simp)

theorem push_run_round_robin_witness :
    1 ≤ 2 ∧
      push_run 2 ([⟨some (EncodedFrameOrTensor.tensor (Tensor.raw 0 ⟨"cuda"⟩)), some (EncodedFrameOrTensor.tensor (Tensor.raw 1 ⟨"cuda"⟩))⟩, ⟨none, none⟩, ⟨none, some (EncodedFrameOrTensor.tensor (Tensor.raw 2 ⟨"cpu"⟩))⟩].map QItem.jobItem ++ [QItem.haltClass])
        = roundRobinSpec 2 0 [⟨some (EncodedFrameOrTensor.tensor (Tensor.raw 0 ⟨"cuda"⟩)), some (EncodedFrameOrTensor.tensor (Tensor.raw 1 ⟨"cuda"⟩))⟩, ⟨none, none⟩, ⟨none, some (EncodedFrameOrTensor.tensor (Tensor.raw 2 ⟨"cpu"⟩))⟩] :=
  ⟨by decide, push_run_round_robin 2 (by decide) _⟩

/-- A concrete runner bound to the default device, for closed evaluations. -/
def runnerCuda : StyleRunner := ⟨⟨"cuda"⟩⟩

/-- A concrete well-formed job, for closed evaluations. -/
def jobA : Job :=
  ⟨some (EncodedFrameOrTensor.tensor (Tensor.raw 0 ⟨"cuda"⟩)),
    some (EncodedFrameOrTensor.tensor (Tensor.raw 1 ⟨"cuda"⟩))⟩

/-- C1: refuted on the code — when `push_run` dequeues the `Halt` sentinel
it only breaks (line 97); it puts no `Halt` into any worker's input queue.
With W = 2 workers and the shared input queue delivering one job then
`Halt`, the dispatcher's send stream holds no `Halt`, so each worker
receives none and each worker output queue carries zero `Halt`s — not the
one `Halt` each that the claim requires. -/
theorem push_run_halt_not_fanned_out :
    push_run 2 [QItem.jobItem jobA, QItem.haltClass]
        = [(0, QItem.jobItem jobA)] ∧
      (workerOutputs runnerCuda 2 [QItem.jobItem jobA, QItem.haltClass]
          0).count ResultItem.haltClass = 0 ∧
      (workerOutputs runnerCuda 2 [QItem.jobItem jobA, QItem.haltClass]
          1).count ResultItem.haltClass = 0 := by
  decide

/-- C4: an `EncodedFrame` already tagged for the runner's own device (both
stored tensors on that device) is returned identically by `encode_frame`,
and the injected encoder-stage call counter does not increment. -/
theorem encode_frame_same_device_identity (r : StyleRunner) (f : EncodedFrame)
    (h4 : f.e4.device = r.device) (h5 : f.e5.device = r.device) :
    r.encode_frame (EncodedFrameOrTensor.frame f) = f ∧
      r.encode_frameCount (EncodedFrameOrTensor.frame f) = (f, 0) := by
  constructor
  · simp [StyleRunner.encode_frame, h4]
  · simp [StyleRunner.encode_frameCount, h4]

theorem encode_frame_same_device_identity_witness :
    ((Tensor.raw 0 ⟨"cuda"⟩).device = runnerCuda.device ∧
        (Tensor.raw 1 ⟨"cuda"⟩).device = runnerCuda.device) ∧
      (runnerCuda.encode_frame
            (EncodedFrameOrTensor.frame ⟨Tensor.raw 0 ⟨"cuda"⟩, Tensor.raw 1 ⟨"cuda"⟩⟩)
          = ⟨Tensor.raw 0 ⟨"cuda"⟩, Tensor.raw 1 ⟨"cuda"⟩⟩ ∧
        runnerCuda.encode_frameCount
            (EncodedFrameOrTensor.frame ⟨Tensor.raw 0 ⟨"cuda"⟩, Tensor.raw 1 ⟨"cuda"⟩⟩)
          = (⟨Tensor.raw 0 ⟨"cuda"⟩, Tensor.raw 1 ⟨"cuda"⟩⟩, 0)) :=
  ⟨⟨by decide, by decide⟩,
    encode_frame_same_device_identity runnerCuda
      ⟨Tensor.raw 0 ⟨"cuda"⟩, Tensor.raw 1 ⟨"cuda"⟩⟩ (by decide) (by decide)⟩

/-- C9: the same-device test of `encode_frame` inspects only `e4.device`
(line 175); a frame whose `e4` is on the runner's device but whose `e5`
is not passes through unchanged, its `e5` still tagged for the foreign
device — no recomputation and no migration of `e5`. -/
theorem encode_frame_checks_only_e4 (r : StyleRunner) (f : EncodedFrame)
    (h4 : f.e4.device = r.device) (h5 : f.e5.device ≠ r.device) :
    r.encode_frame (EncodedFrameOrTensor.frame f) = f ∧
      (r.encode_frame (EncodedFrameOrTensor.frame f)).e5.device ≠ r.device := by
  have hf : r.encode_frame (EncodedFrameOrTensor.frame f) = f := by
    simp [StyleRunner.encode_frame, h4]
  exact ⟨hf, by rw [hf]; exact h5⟩

theorem encode_frame_checks_only_e4_witness :
    ((Tensor.raw 0 ⟨"cuda"⟩).device = runnerCuda.device ∧
        (Tensor.raw 1 ⟨"cpu"⟩).device ≠ runnerCuda.device) ∧
      (runnerCuda.encode_frame
            (EncodedFrameOrTensor.frame ⟨Tensor.raw 0 ⟨"cuda"⟩, Tensor.raw 1 ⟨"cpu"⟩⟩)
          = ⟨Tensor.raw 0 ⟨"cuda"⟩, Tensor.raw 1 ⟨"cpu"⟩⟩ ∧
        (runnerCuda.encode_frame
              (EncodedFrameOrTensor.frame ⟨Tensor.raw 0 ⟨"cuda"⟩, Tensor.raw 1 ⟨"cpu"⟩⟩)).e5.device
          ≠ runnerCuda.device) :=
  ⟨⟨by decide, by decide⟩,
    encode_frame_checks_only_e4 runnerCuda
      ⟨Tensor.raw 0 ⟨"cuda"⟩, Tensor.raw 1 ⟨"cpu"⟩⟩ (by decide) (by decide)⟩

/-- C3: refuted on the code — for an `EncodedFrame` tagged for a different
device, `encode_frame` returns `torch.as_tensor` copies of the stored
intermediate tensors `e4`/`e5` on the runner's device (lines 178-181); no
encoder stage runs and no raw data is reprocessed: on a concrete frame of
raw tensors tagged "cpu", a "cuda" runner returns plain device copies in
which no encoder stage occurs. -/
theorem encode_frame_cross_device_not_recomputed :
    runnerCuda.encode_frame
        (EncodedFrameOrTensor.frame ⟨Tensor.raw 0 ⟨"cpu"⟩, Tensor.raw 1 ⟨"cpu"⟩⟩)
      = ⟨Tensor.asTensor (Tensor.raw 0 ⟨"cpu"⟩) ⟨"cuda"⟩,
          Tensor.asTensor (Tensor.raw 1 ⟨"cpu"⟩) ⟨"cuda"⟩⟩ ∧
      (runnerCuda.encode_frame
            (EncodedFrameOrTensor.frame ⟨Tensor.raw 0 ⟨"cpu"⟩, Tensor.raw 1 ⟨"cpu"⟩⟩)).e4.usesEncoder
        = false ∧
      (runnerCuda.encode_frame
            (EncodedFrameOrTensor.frame ⟨Tensor.raw 0 ⟨"cpu"⟩, Tensor.raw 1 ⟨"cpu"⟩⟩)).e5.usesEncoder
        = false := by
  decide

/-- C3 (amended): for every `EncodedFrame` tagged for a device different
from the runner's, `encode_frame` produces a fresh value for the runner's
device by copying the two stored intermediate tensors there with
`torch.as_tensor(..., device).detach()` — it does not recompute from
underlying raw data through the encoder stages, and the encoder-stage
call counter does not increment. -/
theorem encode_frame_cross_device_copies (r : StyleRunner) (f : EncodedFrame)
    (h : f.e4.device ≠ r.device) :
    r.encode_frame (EncodedFrameOrTensor.frame f)
        = ⟨Tensor.asTensor f.e4 r.device, Tensor.asTensor f.e5 r.device⟩ ∧
      (r.encode_frameCount (EncodedFrameOrTensor.frame f)).2 = 0 := by
  constructor
  · simp [StyleRunner.encode_frame, h]
  · simp [StyleRunner.encode_frameCount, h]

theorem encode_frame_cross_device_copies_witness :
    (Tensor.raw 0 ⟨"cpu"⟩).device ≠ runnerCuda.device ∧
      (runnerCuda.encode_frame
            (EncodedFrameOrTensor.frame ⟨Tensor.raw 0 ⟨"cpu"⟩, Tensor.raw 1 ⟨"cpu"⟩⟩)
          = ⟨Tensor.asTensor (Tensor.raw 0 ⟨"cpu"⟩) runnerCuda.device,
              Tensor.asTensor (Tensor.raw 1 ⟨"cpu"⟩) runnerCuda.device⟩ ∧
        (runnerCuda.encode_frameCount
              (EncodedFrameOrTensor.frame ⟨Tensor.raw 0 ⟨"cpu"⟩, Tensor.raw 1 ⟨"cpu"⟩⟩)).2
          = 0) :=
  ⟨by decide,
    encode_frame_cross_device_copies runnerCuda
      ⟨Tensor.raw 0 ⟨"cpu"⟩, Tensor.raw 1 ⟨"cpu"⟩⟩ (by decide)⟩

/-- Modelled from the spec: "feed the four resulting tensors to the
transform stage in fixed order (source-front, style-front, source-back,
style-back); feed transform output through the decode stage; strip
singleton dimensions; return" — the spec's description of `apply`,
written over the two independently encoded inputs. -/
def applySpec (r : StyleRunner) (source style : EncodedFrameOrTensor) : Tensor :=
  Tensor.squeeze (Tensor.decode
    (Tensor.transform
      (r.encode_frame source).e4
      (r.encode_frame style).e4
      (r.encode_frame source).e5
      (r.encode_frame style).e5))

/-- C7: `apply` encodes source and style independently (each encoded value
is a function of its own input alone), feeds the four resulting tensors to
the transform stage in the order source-front, style-front, source-back,
style-back, passes the transform output through the decode stage, strips
singleton dimensions and returns: it coincides with the spec's pipeline
description on every input. -/
theorem apply_matches_pipeline_spec (r : StyleRunner)
    (source style : EncodedFrameOrTensor) :
    r.apply source style = applySpec r source style := by
  rfl

/-- The attempted `result = qs.get(timeout=get_timeout)` of the collector
loop (line 113), where `qs = thread_output_queues[:]` is a plain Python
list: lists have no `get` attribute, so the call raises `AttributeError`
(which the surrounding `except queue.Empty` clause does not catch). -/
def listQueueGet (qs : List (List ResultItem)) : Except PyError ResultItem :=
  Except.error PyError.attributeError

/-- The `qs.remove(idx)` of the collector loop (line 118): `list.remove`
deletes the first element comparing equal to the value `idx`; `qs` holds
queues and `idx` is an integer, which equals no element, so Python raises
`ValueError`. -/
def listRemoveValue (qs : List (List ResultItem)) (idx : Nat) :
    Except PyError (List (List ResultItem)) :=
  Except.error PyError.valueError

/-- The collector loop `pull_run` (lines 108-121) as literally written,
with the loop's iterations bounded by `fuel` (the loop condition is
`while qs`): each iteration attempts `qs.get(...)` on the plain list `qs`;
on a `Halt` result it would call `qs.remove(idx)`, otherwise it would
forward the result to the shared output queue (accumulated in `acc`) and
advance `idx = (idx + 1) % len(qs)`.  Returns the forwarded items and the
uncaught exception, if any. -/
def pull_runLoop : Nat → Nat → List (List ResultItem) → List ResultItem →
    List ResultItem × Option PyError
  | 0, _, _, acc => (acc, none)
  | fuel + 1, idx, qs, acc =>
    if qs.isEmpty then (acc, none)
    else
      match listQueueGet qs with
      | Except.error e => (acc, some e)
      | Except.ok result =>
        if result = ResultItem.haltClass then
          match listRemoveValue qs idx with
          | Except.error e => (acc, some e)
          | Except.ok qs2 => pull_runLoop fuel idx qs2 acc
        else
          pull_runLoop fuel ((idx + 1) % qs.length) qs (acc ++ [result])

/-- The collector loop `pull_run`, started with `idx = 0`,
`qs = thread_output_queues[:]` and nothing yet forwarded. -/
def pull_run (fuel : Nat) (thread_output_queues : List (List ResultItem)) :
    List ResultItem × Option PyError :=
  pull_runLoop fuel 0 thread_output_queues []

/-- C5: the collector as literally written does not run — with any
non-empty working set, its very first iteration raises `AttributeError`
on `qs.get` (a plain list has no `get`), so the loop dies having forwarded
nothing to the shared output queue; in particular it never reads a `Halt`
from a worker queue, never removes that queue from the working set, and
never forwards anything. -/
theorem pull_run_first_iteration_attribute_error (fuel : Nat)
    (qs : List (List ResultItem)) (hf : fuel ≠ 0) (hqs : qs ≠ []) :
    pull_run fuel qs = ([], some PyError.attributeError) := by
  match fuel, qs with
  | 0, _ => exact absurd rfl hf
  | _ + 1, [] => exact absurd rfl hqs
  | _ + 1, q :: qs => simp [pull_run, pull_runLoop, listQueueGet]

theorem pull_run_first_iteration_attribute_error_witness :
    ((3 : Nat) ≠ 0 ∧ ([[ResultItem.haltClass]] : List (List ResultItem)) ≠ []) ∧
      pull_run 3 [[ResultItem.haltClass]]
        = ([], some PyError.attributeError) :=
  ⟨⟨by decide, by decide⟩,
    pull_run_first_iteration_attribute_error 3 [[ResultItem.haltClass]]
      (by decide) (by decide)⟩

/-- C6: a worker that dequeues a job missing a required parameter raises
`TypeError` from the `apply` call; the loop catches only `queue.Empty`, so
the exception ends the worker loop: the output stream holds exactly the
results of the jobs processed before the failing one, and no item
delivered after the failing job is processed, whatever those items are. -/
theorem model_run_malformed_job_stops_worker (r : StyleRunner)
    (good : List (EncodedFrameOrTensor × EncodedFrameOrTensor))
    (bad : Job) (hbad : bad.source = none ∨ bad.style = none)
    (rest : List QItem) :
    model_run r (good.map (fun p => QItem.jobItem ⟨some p.1, some p.2⟩)
        ++ QItem.jobItem bad :: rest)
      = (good.map (fun p => ResultItem.result (r.apply p.1 p.2)),
          some PyError.typeError) := by
  have hb : applyUnpack r (QItem.jobItem bad) = Except.error PyError.typeError := by
    rcases hbad with h | h
    · simp [applyUnpack, h]
    · cases hs : bad.source <;> simp [applyUnpack, hs, h]
  induction good with
  | nil => simp [model_run, pyEqHalt, hb]
  | cons p good ih => simp [model_run, pyEqHalt, applyUnpack, ih]

theorem model_run_malformed_job_stops_worker_witness :
    ((⟨none, some (EncodedFrameOrTensor.tensor (Tensor.raw 2 ⟨"cuda"⟩))⟩ : Job).source = none ∨
        (⟨none, some (EncodedFrameOrTensor.tensor (Tensor.raw 2 ⟨"cuda"⟩))⟩ : Job).style = none) ∧
      model_run runnerCuda
          ([(EncodedFrameOrTensor.tensor (Tensor.raw 0 ⟨"cuda"⟩),
              EncodedFrameOrTensor.tensor (Tensor.raw 1 ⟨"cuda"⟩))].map
              (fun p => QItem.jobItem ⟨some p.1, some p.2⟩)
            ++ QItem.jobItem ⟨none, some (EncodedFrameOrTensor.tensor (Tensor.raw 2 ⟨"cuda"⟩))⟩
              :: [QItem.jobItem jobA])
        = ([(EncodedFrameOrTensor.tensor (Tensor.raw 0 ⟨"cuda"⟩),
              EncodedFrameOrTensor.tensor (Tensor.raw 1 ⟨"cuda"⟩))].map
              (fun p => ResultItem.result (runnerCuda.apply p.1 p.2)),
            some PyError.typeError) :=
  ⟨Or.inl rfl,
    model_run_malformed_job_stops_worker runnerCuda
      [(EncodedFrameOrTensor.tensor (Tensor.raw 0 ⟨"cuda"⟩),
          EncodedFrameOrTensor.tensor (Tensor.raw 1 ⟨"cuda"⟩))]
      ⟨none, some (EncodedFrameOrTensor.tensor (Tensor.raw 2 ⟨"cuda"⟩))⟩
      (Or.inl rfl) [QItem.jobItem jobA]⟩

/-- C10: `job == Halt` recognizes exactly the `Halt` class object itself
(classes and instances compare by identity and a dict never equals a
class), so an item is the sentinel iff it is the class object; an instance
`Halt()` is not recognized — the dispatcher forwards it to a worker like
an ordinary job, and the worker takes the apply branch on it, invoking
`model_runner.apply(**job)` (which raises `TypeError` unpacking a
non-mapping) instead of the halt branch; a job dict never compares equal
to the sentinel. -/
theorem halt_sentinel_is_class_identity :
    (∀ item, pyEqHalt item = decide (item = QItem.haltClass)) ∧
      push_run 1 [QItem.haltInstance 7, QItem.haltClass]
        = [(0, QItem.haltInstance 7)] ∧
      model_run runnerCuda [QItem.haltInstance 7]
        = ([], some PyError.typeError) ∧
      ∀ j : Job, pyEqHalt (QItem.jobItem j) = false := by
  refine ⟨fun item => ?_, by decide, by decide, fun j => rfl⟩
  cases item <;> rfl

/-- Lexicographic comparison of character lists by Unicode code point. -/
def charListLe : List Char → List Char → Bool
  | [], _ => true
  | _ :: _, [] => false
  | c :: cs, d :: ds =>
    if c.toNat < d.toNat then true
    else if d.toNat < c.toNat then false
    else charListLe cs ds

/-- String comparison by code point, as Python's `sorted` orders strings. -/
def strLe (a b : String) : Bool :=
  charListLe a.data b.data

/-- Insertion into a `strLe`-sorted list. -/
def insertStr (a : String) : List String → List String
  | [] => [a]
  | b :: bs => if strLe a b then a :: b :: bs else b :: insertStr a bs

/-- Insertion sort of strings under `strLe`. -/
def sortStrs : List String → List String
  | [] => []
  | a :: as => insertStr a (sortStrs as)

/-- `sorted(set(args.style_devices))` in `main` (line 247): the distinct
configured device names, in sorted order. -/
def configuredDeviceNames (names : List String) : List String :=
  sortStrs names.dedup

/-- The `style_devices` / `style_runners` construction of `main` (lines
246-254): one `StyleRunner` bound to `torch.device(name)` per configured
device name, keyed by name. -/
def makeStyleRunners (names : List String) : List (String × StyleRunner) :=
  (configuredDeviceNames names).map (fun n => (n, ⟨⟨n⟩⟩))

/-- The inner dict of one style cache entry, from `main`'s loop (lines
268-271): each configured device name mapped to that device's runner's
`encode_frame` of the loaded style tensor. -/
def styleDeviceEntry (style_runners : List (String × StyleRunner))
    (style_tensor : Tensor) : List (String × EncodedFrame) :=
  style_runners.map
    (fun p => (p.1, p.2.encode_frame (EncodedFrameOrTensor.tensor style_tensor)))

/-- The `style_device_map` built by `main` (lines 265-271) over the style
paths of the config; `load` abstracts `load_image_for_style`, from path to
the loaded raw style tensor. -/
def buildStyleDeviceMap (style_runners : List (String × StyleRunner))
    (load : String → Tensor) (styles : List String) :
    List (String × List (String × EncodedFrame)) :=
  styles.map (fun path => (path, styleDeviceEntry style_runners (load path)))

/-- C8: startup with K distinct style paths and the configured devices
populates the style cache with exactly the K paths as keys (distinct, so
the dict holds exactly K entries), and every entry maps each configured
device name to the `EncodedFrame` obtained by encoding the loaded style
tensor on that device's runner: both stored tensors are tagged for that
device and were produced through the encoder stages. -/
theorem style_cache_startup (names styles : List String)
    (load : String → Tensor) (hK : styles.Nodup) :
    (buildStyleDeviceMap (makeStyleRunners names) load styles).map Prod.fst
        = styles ∧
      ((buildStyleDeviceMap (makeStyleRunners names) load styles).map
          Prod.fst).Nodup ∧
      ∀ e ∈ buildStyleDeviceMap (makeStyleRunners names) load styles,
        e.2.map Prod.fst = configuredDeviceNames names ∧
        ∀ q ∈ e.2,
          q.2 = StyleRunner.encode_frame ⟨⟨q.1⟩⟩
              (EncodedFrameOrTensor.tensor (load e.1)) ∧
            q.2.e4.device = ⟨q.1⟩ ∧ q.2.e5.device = ⟨q.1⟩ ∧
            q.2.e4.usesEncoder = true ∧ q.2.e5.usesEncoder = true := by
  have hfst : (buildStyleDeviceMap (makeStyleRunners names) load styles).map
      Prod.fst = styles := by
    simp only [buildStyleDeviceMap, List.map_map]
    exact List.map_id styles
  refine ⟨hfst, by rw [hfst]; exact hK, ?_⟩
  intro e he
  rcases List.mem_map.mp he with ⟨path, hpath, rfl⟩
  constructor
  · simp only [styleDeviceEntry, makeStyleRunners, List.map_map]
    exact List.map_id (configuredDeviceNames names)
  · intro q hq
    rcases List.mem_map.mp hq with ⟨p, hp, rfl⟩
    rcases List.mem_map.mp hp with ⟨n, hn, rfl⟩
    refine ⟨rfl, ?_, ?_, rfl, rfl⟩ <;>
      simp [StyleRunner.encode_frame, Tensor.device]

theorem style_cache_startup_witness :
    (["a.png", "b.png"] : List String).Nodup ∧
      ((buildStyleDeviceMap (makeStyleRunners ["cuda", "cpu"])
            (fun _ => Tensor.raw 0 ⟨"cpu"⟩) ["a.png", "b.png"]).map Prod.fst
          = ["a.png", "b.png"] ∧
        ((buildStyleDeviceMap (makeStyleRunners ["cuda", "cpu"])
            (fun _ => Tensor.raw 0 ⟨"cpu"⟩) ["a.png", "b.png"]).map
            Prod.fst).Nodup ∧
        ∀ e ∈ buildStyleDeviceMap (makeStyleRunners ["cuda", "cpu"])
            (fun _ => Tensor.raw 0 ⟨"cpu"⟩) ["a.png", "b.png"],
          e.2.map Prod.fst = configuredDeviceNames ["cuda", "cpu"] ∧
          ∀ q ∈ e.2,
            q.2 = StyleRunner.encode_frame ⟨⟨q.1⟩⟩
                (EncodedFrameOrTensor.tensor ((fun _ => Tensor.raw 0 ⟨"cpu"⟩) e.1)) ∧
              q.2.e4.device = ⟨q.1⟩ ∧ q.2.e5.device = ⟨q.1⟩ ∧
              q.2.e4.usesEncoder = true ∧ q.2.e5.usesEncoder = true) :=
  ⟨by decide,
    style_cache_startup ["cuda", "cpu"] ["a.png", "b.png"]
      (fun _ => Tensor.raw 0 ⟨"cpu"⟩) (by decide)⟩

end StyleLens
